import Mathlib

/-!
Verification of the JEPCO grid-stability analytics pipeline.

Shallow embedding of the core services:
 - `apps/forecasting/services/predictor.py`   (LoadForecaster, BulkForecaster)
 - `apps/risk/services/risk_scorer.py`        (RiskScorer, BulkRiskScorer)
 - `apps/risk/models.py`                      (RiskAssessment.save)
 - `apps/planning/services/mitigation_simulator.py` (MitigationSimulator)
 - `apps/llm/services/claude_service.py`      (ClaudeExplainer, PlanEnhancer)

Python floats and Decimals are modelled as exact rationals (ℚ).  Python's
`round(x, n)` (banker's rounding, round-half-to-even) is modelled by
`pyRound`.  Database state that the services read (latest telemetry
readings, latest forecasts, topology links) is modelled by an explicit
environment record `Env`.
-/

namespace Jepco

/-- Python `round` to an integer: round half to even (banker's rounding). -/
def roundHalfEven (q : ℚ) : ℤ :=
  let f := ⌊q⌋
  let r := q - f
  if r < 1/2 then f
  else if 1/2 < r then f + 1
  else if f % 2 = 0 then f else f + 1

/-- Python `round(q, n)`: round to `n` decimal places, half to even. -/
def pyRound (q : ℚ) (n : ℕ) : ℚ :=
  (roundHalfEven (q * 10 ^ n) : ℚ) / 10 ^ n

theorem roundHalfEven_le (q : ℚ) : (roundHalfEven q : ℚ) ≤ q + 1/2 := by
  simp only [roundHalfEven]
  have h1 : ((⌊q⌋ : ℤ) : ℚ) ≤ q := Int.floor_le q
  have h2 : q < (⌊q⌋ : ℤ) + 1 := Int.lt_floor_add_one q
  split_ifs <;> push_cast <;> linarith

theorem le_roundHalfEven (q : ℚ) : q - 1/2 ≤ (roundHalfEven q : ℚ) := by
  simp only [roundHalfEven]
  have h1 : ((⌊q⌋ : ℤ) : ℚ) ≤ q := Int.floor_le q
  have h2 : q < (⌊q⌋ : ℤ) + 1 := Int.lt_floor_add_one q
  split_ifs <;> push_cast <;> linarith

theorem floor_le_roundHalfEven (q : ℚ) : ⌊q⌋ ≤ roundHalfEven q := by
  simp only [roundHalfEven]
  split_ifs <;> omega

theorem roundHalfEven_le_floor_add_one (q : ℚ) : roundHalfEven q ≤ ⌊q⌋ + 1 := by
  simp only [roundHalfEven]
  split_ifs <;> omega

theorem roundHalfEven_mono {p q : ℚ} (h : p ≤ q) :
    roundHalfEven p ≤ roundHalfEven q := by
  have hff : ⌊p⌋ ≤ ⌊q⌋ := Int.floor_le_floor h
  rcases lt_or_eq_of_le hff with hlt | heq
  · calc roundHalfEven p ≤ ⌊p⌋ + 1 := roundHalfEven_le_floor_add_one p
      _ ≤ ⌊q⌋ := by omega
      _ ≤ roundHalfEven q := floor_le_roundHalfEven q
  · have hcast : ((⌊p⌋ : ℤ) : ℚ) = ((⌊q⌋ : ℤ) : ℚ) := by exact_mod_cast heq
    have hr : p - (⌊p⌋ : ℚ) ≤ q - (⌊q⌋ : ℚ) := by rw [← hcast]; linarith
    simp only [roundHalfEven]
    split_ifs <;> first | omega | (exfalso; rw [heq] at *; linarith)

theorem pyRound_le (q : ℚ) (n : ℕ) : pyRound q n ≤ q + 1 / (2 * 10 ^ n) := by
  unfold pyRound
  have h := roundHalfEven_le (q * 10 ^ n)
  have hp : (0 : ℚ) < 10 ^ n := by positivity
  rw [div_le_iff₀ hp]
  have : (q + 1 / (2 * 10 ^ n)) * 10 ^ n = q * 10 ^ n + 1/2 := by
    field_simp; ring
  rw [this]; exact h

theorem le_pyRound (q : ℚ) (n : ℕ) : q - 1 / (2 * 10 ^ n) ≤ pyRound q n := by
  unfold pyRound
  have h := le_roundHalfEven (q * 10 ^ n)
  have hp : (0 : ℚ) < 10 ^ n := by positivity
  rw [le_div_iff₀ hp]
  have : (q - 1 / (2 * 10 ^ n)) * 10 ^ n = q * 10 ^ n - 1/2 := by
    field_simp; ring
  rw [this]; exact h

theorem pyRound_mono {p q : ℚ} (h : p ≤ q) (n : ℕ) :
    pyRound p n ≤ pyRound q n := by
  unfold pyRound
  have hp : (0 : ℚ) < 10 ^ n := by positivity
  have hm : roundHalfEven (p * 10 ^ n) ≤ roundHalfEven (q * 10 ^ n) :=
    roundHalfEven_mono (by nlinarith)
  exact (div_le_div_iff_of_pos_right hp).mpr (by exact_mod_cast hm)

theorem pyRound_nonneg {q : ℚ} (h : 0 ≤ q) (n : ℕ) : 0 ≤ pyRound q n := by
  unfold pyRound
  have hp : (0 : ℚ) < 10 ^ n := by positivity
  have h1 : (-1 : ℤ) < roundHalfEven (q * 10 ^ n) := by
    have := le_roundHalfEven (q * 10 ^ n)
    have hq : 0 ≤ q * 10 ^ n := by positivity
    have : (-1 : ℚ) < (roundHalfEven (q * 10 ^ n) : ℚ) := by linarith
    exact_mod_cast this
  have h0 : (0 : ℤ) ≤ roundHalfEven (q * 10 ^ n) := by omega
  exact div_nonneg (by exact_mod_cast h0) (le_of_lt hp)

/-! ## Data model

Records mirror the Django models, restricted to the fields the core
services read.  `Env` models the database state the services query:
latest telemetry reading per transformer id, latest forecast peak per
transformer id, active outgoing topology links per transformer id, and
the current year (read from the clock for transformer age).
-/

/-- A switch on a topology link (`assets.Switch`). -/
structure Switch where
  id : ℕ
  name : String
deriving DecidableEq, Repr

/-- `assets.Transformer`, restricted to the fields the pipeline reads. -/
structure Transformer where
  id : ℕ
  name : String
  rated_kw : ℚ
  max_load_pct : ℚ
  install_year : ℤ
  cooling_type : String
deriving DecidableEq, Repr

/-- An active outgoing `assets.TopologyLink` (already joined with its
target transformer and optional switch, as `select_related` does). -/
structure TopologyLink where
  to_transformer : Transformer
  max_transfer_kw : ℚ
  switch : Option Switch
deriving DecidableEq, Repr

/-- The most recent `telemetry.TransformerLoad` row for a transformer. -/
structure LoadReading where
  load_kw : ℚ
  load_pct : ℚ
deriving DecidableEq, Repr

/-- One entry of `LoadForecast.predictions`. -/
structure Prediction where
  predicted_kw : ℚ
  predicted_pct : ℚ
  confidence : ℚ
deriving DecidableEq, Repr

/-- `forecasting.LoadForecast`, restricted to the fields read downstream. -/
structure LoadForecast where
  predictions : List Prediction
  peak_predicted_kw : ℚ
  peak_predicted_pct : ℚ
deriving DecidableEq, Repr

/-- `risk.RiskAssessment` as consumed by the mitigation simulator
(references to the transformer and forecast are carried inline, as
`select_related` hands them to the service code). -/
structure RiskAssessment where
  transformer : Transformer
  forecast : LoadForecast
  risk_score : ℚ
  overload_pct : ℚ
  confidence : ℚ
  risk_components : ℚ × ℚ × ℚ
deriving DecidableEq, Repr

/-- Database state read by the services. -/
structure Env where
  /-- Latest `TransformerLoad` row for a transformer id (newest first). -/
  latestLoad : ℕ → Option LoadReading
  /-- Temperature of the latest load row that has a non-null `temp_c`. -/
  latestTemp : ℕ → Option ℚ
  /-- `peak_predicted_kw` of the latest stored forecast, if any. -/
  latestForecastPeak : ℕ → Option ℚ
  /-- Active outgoing topology links of a transformer id. -/
  links : ℕ → List TopologyLink
  /-- `timezone.now().year`. -/
  currentYear : ℤ

/-- Python truthiness of an optional float: `None` and `0.0` are falsy. -/
def pyTruthy : Option ℚ → Bool
  | none => false
  | some q => q != 0

/-! ## RiskScorer (`apps/risk/services/risk_scorer.py`) -/

/-- `RiskScorer._calculate_overload_score`. -/
def _calculate_overload_score (load_pct : ℚ) : ℚ :=
  if load_pct ≤ 90 then 0
  else if load_pct ≤ 100 then
    -- Linear scaling: 90% → 0.3, 100% → 0.7
    0.3 + (load_pct - 90) * 0.04
  else
    -- Linear scaling: 100% → 0.7, 120% → 1.0
    min (0.7 + (load_pct - 100) * 0.015) 1.0

/-- `RiskScorer._calculate_thermal_score`.  The `forecast` argument is
accepted but unused, exactly as in the source.  The guard
`if not latest_temp` uses Python truthiness: it fires both when no
temperature reading exists and when the latest reading is exactly 0.0. -/
def _calculate_thermal_score (env : Env) (_forecast : LoadForecast)
    (transformer : Transformer) : ℚ :=
  let latest_temp := env.latestTemp transformer.id
  if pyTruthy latest_temp = false then
    -- No temperature data, use conservative estimate
    0.2
  else
    let T := latest_temp.getD 0
    let temp_score :=
      if T ≤ 25 then (0 : ℚ)
      else if T ≤ 30 then (T - 25) * 0.06
      else if T ≤ 35 then 0.3 + (T - 30) * 0.06
      else if T ≤ 40 then 0.6 + (T - 35) * 0.06
      else min (0.9 + (T - 40) * 0.02) 1.0
    let age := env.currentYear - transformer.install_year
    let age_factor : ℚ := if age > 25 then 1.3 else if age > 15 then 1.1 else 1.0
    let cooling_factor : ℚ := if transformer.cooling_type = "ONAF" then 0.8 else 1.0
    min (temp_score * age_factor * cooling_factor) 1.0

/-- `RiskScorer._calculate_cascading_score`. -/
def _calculate_cascading_score (env : Env) (transformer : Transformer) : ℚ :=
  let outgoing_links := env.links transformer.id
  if outgoing_links = [] then
    -- Isolated transformer = higher risk (no load transfer options)
    0.5
  else
    let total_neighbors := outgoing_links.length
    let neighbors_overloaded := (outgoing_links.filter (fun link =>
        match env.latestLoad link.to_transformer.id with
        | some latest => decide (latest.load_pct > 85)
        | none => false)).length
    if total_neighbors = 0 then 0.5
    else
      let r := (neighbors_overloaded : ℚ) / (total_neighbors : ℚ)
      if r = 0 then 0.0
      else if r < 0.5 then 0.3
      else 0.7

/-- Arithmetic mean of a list (`np.mean`); only applied to non-empty lists. -/
def listMean (l : List ℚ) : ℚ := l.sum / l.length

/-- `RiskScorer._calculate_assessment_confidence`. -/
def _calculate_assessment_confidence (forecast : LoadForecast) : ℚ :=
  if forecast.predictions = [] then 0.5
  else pyRound (listMean (forecast.predictions.map (·.confidence))) 3

inductive ScoreError where
  | emptyForecast
deriving DecidableEq, Repr

/-- `RiskScorer.score_transformer` (the persisted fields relevant to the
pipeline; `reasons_json` and the time window are presentation-only). -/
def score_transformer (env : Env) (transformer : Transformer)
    (forecast : LoadForecast) : Except ScoreError RiskAssessment :=
  if forecast.predictions = [] then .error .emptyForecast
  else
    let overload_score := _calculate_overload_score forecast.peak_predicted_pct
    let thermal_score := _calculate_thermal_score env forecast transformer
    let cascading_score := _calculate_cascading_score env transformer
    let total_score :=
      0.6 * overload_score + 0.2 * thermal_score + 0.2 * cascading_score
    .ok { transformer := transformer
          forecast := forecast
          risk_score := pyRound total_score 3
          overload_pct := forecast.peak_predicted_pct
          confidence := _calculate_assessment_confidence forecast
          risk_components :=
            (pyRound overload_score 3, pyRound thermal_score 3, pyRound cascading_score 3) }

/-! ## RiskAssessment.save (`apps/risk/models.py`) -/

/-- The step function of `RiskAssessment.save`. -/
def computed_risk_level (score : ℚ) : String :=
  if score < 0.3 then "LOW"
  else if score < 0.7 then "MEDIUM"
  else "HIGH"

/-- `RiskAssessment.save`: the level stored for a given explicit
`risk_level` field value (`None` or `''` means not explicitly set). -/
def save_risk_level (explicit : Option String) (risk_score : ℚ) : String :=
  match explicit with
  | none => computed_risk_level risk_score
  | some l => if l = "" then computed_risk_level risk_score else l

/-! ## Claims C3, C6, C7 -/

/-- C3: the overload component is 0 for `peak_pct ≤ 90`; linear from 0.30
to 0.70 over `(90, 100]` (exactly 0.70 at 100); linear from 0.70 to 1.00
over `(100, 120]` (exactly 1.0 at 120); clamped at 1.0 above 120. -/
theorem overload_component_piecewise :
    (∀ x : ℚ, x ≤ 90 → _calculate_overload_score x = 0) ∧
    (∀ x : ℚ, 90 < x → x ≤ 100 →
      _calculate_overload_score x = 0.3 + (x - 90) * 0.04) ∧
    _calculate_overload_score 100 = 0.7 ∧
    (∀ x : ℚ, 100 < x → x ≤ 120 →
      _calculate_overload_score x = 0.7 + (x - 100) * 0.015) ∧
    _calculate_overload_score 120 = 1 ∧
    (∀ x : ℚ, 120 < x → _calculate_overload_score x = 1) := by
  refine ⟨fun x h => ?_, fun x h1 h2 => ?_, ?_, fun x h1 h2 => ?_, ?_, fun x h => ?_⟩
  · simp only [_calculate_overload_score]; rw [if_pos h]
  · simp only [_calculate_overload_score]; rw [if_neg (by linarith), if_pos h2]
  · norm_num [_calculate_overload_score]
  · simp only [_calculate_overload_score]
    rw [if_neg (by linarith), if_neg (by linarith)]
    apply min_eq_left; nlinarith
  · norm_num [_calculate_overload_score]
  · simp only [_calculate_overload_score]
    rw [if_neg (by linarith), if_neg (by linarith)]
    have h1 : (1.0 : ℚ) ≤ 0.7 + (x - 100) * 0.015 := by nlinarith
    rw [min_eq_right h1]; norm_num

theorem overload_component_piecewise_witness :
    (90 : ℚ) < 95 ∧ (95 : ℚ) ≤ 100 ∧
    _calculate_overload_score 95 = 0.3 + (95 - 90) * 0.04 :=
  ⟨by norm_num, by norm_num,
    overload_component_piecewise.2.1 95 (by norm_num) (by norm_num)⟩

/-- Monotonicity of the overload component (used for C10). -/
theorem overload_score_mono {x y : ℚ} (h : x ≤ y) :
    _calculate_overload_score x ≤ _calculate_overload_score y := by
  simp only [_calculate_overload_score]
  split_ifs with h1 h2 h3 h4 h5 h6 <;>
    first
      | linarith
      | (apply le_min <;> nlinarith)
      | (exact min_le_min (by nlinarith) le_rfl)

/-- Inputs exhibiting the thermal-score truthiness slip (C6): a latest
temperature reading of exactly 0.0 °C. -/
def c6_transformer : Transformer :=
  { id := 1, name := "T-01", rated_kw := 1000, max_load_pct := 90
    install_year := 2020, cooling_type := "ONAN" }

def c6_forecast : LoadForecast :=
  { predictions := [], peak_predicted_kw := 0, peak_predicted_pct := 0 }

/-- State with a most-recent temperature reading of exactly 0.0 °C. -/
def c6_env : Env :=
  { latestLoad := fun _ => none, latestTemp := fun _ => some 0
    latestForecastPeak := fun _ => none, links := fun _ => []
    currentYear := 2026 }

/-- Same state but with a reading of 0.1 °C. -/
def c6_env' : Env :=
  { latestLoad := fun _ => none, latestTemp := fun _ => some (1/10)
    latestForecastPeak := fun _ => none, links := fun _ => []
    currentYear := 2026 }

/-- C6 (code bug): with a most recent temperature reading of exactly
0.0 °C the code returns the fixed no-data estimate 0.2, because
`if not latest_temp` treats the reading 0.0 as missing (Python
truthiness); the piecewise map of the claim would give 0 (as it does for
a 0.1 °C reading). -/
theorem thermal_score_truthiness_bug :
    _calculate_thermal_score c6_env c6_forecast c6_transformer = 0.2 ∧
    _calculate_thermal_score c6_env' c6_forecast c6_transformer = 0 ∧
    (0.2 : ℚ) ≠ 0 := by
  refine ⟨?_, ?_, by norm_num⟩ <;>
    norm_num [_calculate_thermal_score, pyTruthy, c6_env, c6_env', c6_forecast,
      c6_transformer]

/-- C7: for an assessment saved without an explicit level, `risk_level`
is the step function of `risk_score` with boundaries exactly at 0.30 and
0.70: LOW iff score < 0.30, MEDIUM iff 0.30 ≤ score < 0.70, HIGH iff
score ≥ 0.70. -/
theorem risk_level_step_function :
    ∀ score : ℚ,
      (save_risk_level none score = "LOW" ↔ score < 0.3) ∧
      (save_risk_level none score = "MEDIUM" ↔ 0.3 ≤ score ∧ score < 0.7) ∧
      (save_risk_level none score = "HIGH" ↔ 0.7 ≤ score) := by
  intro s
  simp only [save_risk_level, computed_risk_level]
  split_ifs with h1 h2
  · exact ⟨⟨fun _ => h1, fun _ => rfl⟩,
      ⟨fun h => absurd h (by decide), fun h => absurd h1 (by push_neg; exact h.1)⟩,
      ⟨fun h => absurd h (by decide), fun h => absurd h1 (by push_neg; linarith)⟩⟩
  · exact ⟨⟨fun h => absurd h (by decide), fun h => absurd h h1⟩,
      ⟨fun _ => ⟨not_lt.mp h1, h2⟩, fun _ => rfl⟩,
      ⟨fun h => absurd h (by decide), fun h => absurd h2 (not_lt.mpr h)⟩⟩
  · exact ⟨⟨fun h => absurd h (by decide), fun h => absurd h h1⟩,
      ⟨fun h => absurd h (by decide), fun h => absurd h.2 h2⟩,
      ⟨fun _ => not_lt.mp h2, fun _ => rfl⟩⟩

/-! ## String formatting (Python f-string `:.Nf` fields, on exact ℚ) -/

def padZeros (s : String) (len : ℕ) : String :=
  String.mk (List.replicate (len - s.length) '0') ++ s

/-- Python `f"{q:.decf}"` fixed-point formatting of a float, modelled on
exact rationals with banker's rounding. -/
def fmtFixed (dec : ℕ) (q : ℚ) : String :=
  let n := roundHalfEven (q * 10 ^ dec)
  if dec = 0 then toString n
  else
    (if n < 0 then "-" else "") ++ toString (n.natAbs / 10 ^ dec) ++ "." ++
      padZeros (toString (n.natAbs % 10 ^ dec)) dec

/-! ## MitigationSimulator (`apps/planning/services/mitigation_simulator.py`) -/

/-- The `plan_data` dict stored as `MitigationPlan.plan_json`. -/
structure PlanData where
  from_transformer : ℕ
  from_transformer_name : String
  to_transformer : ℕ
  to_transformer_name : String
  transfer_kw : ℚ
  switch_id : Option ℕ
  switch_name : String
  link_capacity_kw : ℚ
  risk_before : ℚ
  risk_after : ℚ
  risk_reduction : ℚ
  expected_operations : ℕ
  load_before_pct : ℚ
  load_after_pct : ℚ
deriving DecidableEq, Repr

/-- `planning.MitigationPlan`, restricted to the fields the pipeline
writes and reads. -/
structure MitigationPlan where
  plan_json : PlanData
  expected_risk_after : ℚ
  expected_load_reduction_kw : ℚ
  executive_summary : String
  operator_steps : List String
  field_checklist : List String
  rollback_steps : List String
  assumptions : List String
  llm_confidence : ℚ
deriving DecidableEq, Repr

/-- The three `ValueError` cases of `generate_plans`, named as in the
spec's error taxonomy. -/
inductive SimError where
  | notOverloaded
  | noNeighbors
  | noViablePlan
deriving DecidableEq, Repr

/-- `MitigationSimulator._calculate_overload_kw`. -/
def _calculate_overload_kw (a : RiskAssessment) : ℚ :=
  let peak_kw := a.forecast.peak_predicted_kw
  let safe_kw := a.transformer.rated_kw * (a.transformer.max_load_pct / 100)
  max 0 (peak_kw - safe_kw)

/-- `MitigationSimulator._get_available_capacity`. -/
def _get_available_capacity (env : Env) (transformer : Transformer) : ℚ :=
  let current_load_kw :=
    match env.latestLoad transformer.id with
    | some latest => latest.load_kw
    | none =>
      match env.latestForecastPeak transformer.id with
      | some peak => peak
      | none => transformer.rated_kw * 0.7  -- conservative estimate: 70% load
  let safe_capacity := transformer.rated_kw * (transformer.max_load_pct / 100)
  max 0 (safe_capacity - current_load_kw)

/-- `MitigationSimulator._simulate_transfer`. -/
def _simulate_transfer (env : Env) (from_transformer _to_transformer : Transformer)
    (transfer_kw : ℚ) (forecast : LoadForecast) : ℚ :=
  let new_peak_kw := forecast.peak_predicted_kw - transfer_kw
  let new_peak_pct := new_peak_kw / from_transformer.rated_kw * 100
  let overload_score := _calculate_overload_score new_peak_pct
  let thermal_score := _calculate_thermal_score env forecast from_transformer
  let cascading_score := _calculate_cascading_score env from_transformer
  pyRound (0.6 * overload_score + 0.2 * thermal_score + 0.2 * cascading_score) 3

/-- The `transfer_kw = min(...)` computed inside the neighbor loop of
`generate_plans`. -/
def transfer_amount (env : Env) (safety_margin max_transfer_pct : ℚ)
    (a : RiskAssessment) (link : TopologyLink) : ℚ :=
  let overload_kw := _calculate_overload_kw a
  let available_kw := _get_available_capacity env link.to_transformer
  let max_transfer_by_link := link.max_transfer_kw
  let max_transfer_by_capacity := available_kw * safety_margin
  let max_transfer_by_source := a.forecast.peak_predicted_kw * max_transfer_pct
  min overload_kw
    (min max_transfer_by_link (min max_transfer_by_capacity max_transfer_by_source))

/-- The switch display name used in the plan templates. -/
def switch_display (link : TopologyLink) (fallback : String) : String :=
  match link.switch with
  | some s => s.name
  | none => fallback

/-- The `MitigationPlan` instance built for one neighbor inside the loop
of `generate_plans` (source lines 100–159). -/
def mk_candidate (env : Env) (safety_margin max_transfer_pct : ℚ)
    (a : RiskAssessment) (link : TopologyLink) : MitigationPlan :=
  let transformer := a.transformer
  let forecast := a.forecast
  let neighbor := link.to_transformer
  let transfer_kw := transfer_amount env safety_margin max_transfer_pct a link
  let simulated_risk := _simulate_transfer env transformer neighbor transfer_kw forecast
  let risk_reduction := a.risk_score - simulated_risk
  { plan_json :=
      { from_transformer := transformer.id
        from_transformer_name := transformer.name
        to_transformer := neighbor.id
        to_transformer_name := neighbor.name
        transfer_kw := pyRound transfer_kw 2
        switch_id := link.switch.map (·.id)
        switch_name := switch_display link "direct"
        link_capacity_kw := link.max_transfer_kw
        risk_before := a.risk_score
        risk_after := simulated_risk
        risk_reduction := pyRound risk_reduction 3
        expected_operations := match link.switch with | some _ => 1 | none => 0
        load_before_pct := forecast.peak_predicted_pct
        load_after_pct :=
          pyRound ((forecast.peak_predicted_kw - transfer_kw) / transformer.rated_kw * 100) 2 }
    expected_risk_after := simulated_risk
    expected_load_reduction_kw := transfer_kw
    executive_summary :=
      "Transfer " ++ fmtFixed 0 transfer_kw ++ " kW from " ++ transformer.name ++
        " to " ++ neighbor.name
    operator_steps :=
      [ "1. Verify " ++ switch_display link "tie line" ++ " is operational",
        "2. Close " ++ switch_display link "connection" ++ " to transfer load",
        "3. Monitor both transformers for 10 minutes",
        "4. Verify " ++ transformer.name ++ " load drops below 90%" ]
    field_checklist :=
      [ "PPE verification",
        "Lockout/tagout procedures followed",
        "Communication equipment functional" ]
    rollback_steps :=
      [ "1. If voltage deviation > 1.05 pu, reopen " ++ switch_display link "connection",
        "2. Notify control room immediately",
        "3. Record outcome in work order notes" ]
    assumptions :=
      [ "Forecast error margin ±6%",
        "Weather conditions remain stable",
        "No concurrent outages in area" ]
    llm_confidence := 0 }

/-- One iteration of the neighbor loop: `none` when the neighbor is
skipped (available capacity < 50, or transfer_kw < 50). -/
def candidate_plan (env : Env) (safety_margin max_transfer_pct : ℚ)
    (a : RiskAssessment) (link : TopologyLink) : Option MitigationPlan :=
  if _get_available_capacity env link.to_transformer < 50 then none
  else if transfer_amount env safety_margin max_transfer_pct a link < 50 then none
  else some (mk_candidate env safety_margin max_transfer_pct a link)

/-- The `candidate_plans` list accumulated by the neighbor loop. -/
def candidate_plans (env : Env) (safety_margin max_transfer_pct : ℚ)
    (a : RiskAssessment) : List MitigationPlan :=
  (env.links a.transformer.id).filterMap (candidate_plan env safety_margin max_transfer_pct a)

/-! Python's `sorted(..., key=..., reverse=True)` is a stable descending
sort: elements with equal keys keep their original relative order.  We
model it by a stable descending insertion sort (extensionally equal to
any stable descending sort). -/

def insertDescBy {α : Type} (key : α → ℚ) (a : α) : List α → List α
  | [] => [a]
  | b :: bs => if key b ≤ key a then a :: b :: bs else b :: insertDescBy key a bs

def sortDescBy {α : Type} (key : α → ℚ) : List α → List α
  | [] => []
  | a :: rest => insertDescBy key a (sortDescBy key rest)

/-- `MitigationSimulator.generate_plans`.  `safety_margin` and
`max_transfer_pct` are the constructor parameters (defaults 0.8 and 0.3);
`max_plans` defaults to 3 at the call sites. -/
def generate_plans (env : Env) (a : RiskAssessment)
    (safety_margin max_transfer_pct : ℚ) (max_plans : ℕ) :
    Except SimError (List MitigationPlan) :=
  let overload_kw := _calculate_overload_kw a
  if overload_kw ≤ 0 then .error .notOverloaded
  else if env.links a.transformer.id = [] then .error .noNeighbors
  else
    let cands := candidate_plans env safety_margin max_transfer_pct a
    if cands = [] then .error .noViablePlan
    else .ok ((sortDescBy (fun p => p.plan_json.risk_reduction) cands).take max_plans)

/-! ### Sorting lemmas -/

theorem mem_insertDescBy {α : Type} (key : α → ℚ) (a x : α) (l : List α) :
    x ∈ insertDescBy key a l ↔ x = a ∨ x ∈ l := by
  induction l with
  | nil => simp [insertDescBy]
  | cons b bs ih =>
    simp only [insertDescBy]
    split_ifs with h
    · simp [List.mem_cons]
    · simp only [List.mem_cons, ih]
      tauto

theorem mem_sortDescBy {α : Type} (key : α → ℚ) (x : α) (l : List α) :
    x ∈ sortDescBy key l ↔ x ∈ l := by
  induction l with
  | nil => simp [sortDescBy]
  | cons a rest ih =>
    simp only [sortDescBy, mem_insertDescBy, ih, List.mem_cons]

theorem length_insertDescBy {α : Type} (key : α → ℚ) (a : α) (l : List α) :
    (insertDescBy key a l).length = l.length + 1 := by
  induction l with
  | nil => rfl
  | cons b bs ih =>
    simp only [insertDescBy]
    split_ifs with h
    · simp
    · simp [ih]

theorem length_sortDescBy {α : Type} (key : α → ℚ) (l : List α) :
    (sortDescBy key l).length = l.length := by
  induction l with
  | nil => rfl
  | cons a rest ih => simp [sortDescBy, length_insertDescBy, ih]

theorem pairwise_insertDescBy {α : Type} (key : α → ℚ) (a : α) {l : List α}
    (h : l.Pairwise (fun u v => key v ≤ key u)) :
    (insertDescBy key a l).Pairwise (fun u v => key v ≤ key u) := by
  induction l with
  | nil => simp [insertDescBy]
  | cons b bs ih =>
    rcases List.pairwise_cons.mp h with ⟨hb, hbs⟩
    simp only [insertDescBy]
    split_ifs with hk
    · refine List.pairwise_cons.mpr ⟨?_, h⟩
      intro y hy
      rcases List.mem_cons.mp hy with rfl | hy
      · exact hk
      · exact le_trans (hb y hy) hk
    · refine List.pairwise_cons.mpr ⟨?_, ih hbs⟩
      intro y hy
      rcases (mem_insertDescBy key a y bs).mp hy with rfl | hy
      · exact le_of_lt (not_le.mp hk)
      · exact hb y hy

theorem pairwise_sortDescBy {α : Type} (key : α → ℚ) (l : List α) :
    (sortDescBy key l).Pairwise (fun u v => key v ≤ key u) := by
  induction l with
  | nil => simp [sortDescBy]
  | cons a rest ih => exact pairwise_insertDescBy key a ih

theorem filter_insertDescBy_pos {α : Type} {key : α → ℚ} {a : α} {k : ℚ}
    (hak : key a = k) (l : List α) :
    (insertDescBy key a l).filter (fun x => decide (key x = k)) =
      a :: l.filter (fun x => decide (key x = k)) := by
  induction l with
  | nil => simp [insertDescBy, hak]
  | cons b bs ih =>
    simp only [insertDescBy]
    split_ifs with hba
    · simp [List.filter_cons, hak]
    · have hbk : ¬ key b = k := by
        intro he
        have : key a < key b := not_le.mp hba
        rw [hak, he] at this
        exact lt_irrefl k this
      simp [List.filter_cons, hbk, ih]

theorem filter_insertDescBy_neg {α : Type} {key : α → ℚ} {a : α} {k : ℚ}
    (hak : ¬ key a = k) (l : List α) :
    (insertDescBy key a l).filter (fun x => decide (key x = k)) =
      l.filter (fun x => decide (key x = k)) := by
  induction l with
  | nil => simp [insertDescBy, hak]
  | cons b bs ih =>
    simp only [insertDescBy]
    split_ifs with hba
    · simp [List.filter_cons, hak]
    · simp [List.filter_cons, ih]

theorem filter_sortDescBy {α : Type} (key : α → ℚ) (l : List α) (k : ℚ) :
    (sortDescBy key l).filter (fun x => decide (key x = k)) =
      l.filter (fun x => decide (key x = k)) := by
  induction l with
  | nil => rfl
  | cons a rest ih =>
    simp only [sortDescBy]
    by_cases hak : key a = k
    · rw [filter_insertDescBy_pos hak, ih]
      simp [List.filter_cons, hak]
    · rw [filter_insertDescBy_neg hak, ih]
      simp [List.filter_cons, hak]

/-! ### Evaluation and inversion lemmas for `generate_plans` -/

/-- Evaluate `roundHalfEven` away from ties. -/
theorem roundHalfEven_eq_of_lt {q : ℚ} {m : ℤ}
    (hlo : (m : ℚ) - 1/2 < q) (hhi : q < (m : ℚ) + 1/2) :
    roundHalfEven q = m := by
  rcases le_or_lt ((m : ℚ)) q with hle | hlt
  · have hf : ⌊q⌋ = m := Int.floor_eq_iff.mpr ⟨hle, by linarith⟩
    simp only [roundHalfEven, hf]
    rw [if_pos (by linarith)]
  · have hf : ⌊q⌋ = m - 1 :=
      Int.floor_eq_iff.mpr ⟨by push_cast; linarith, by push_cast; linarith⟩
    simp only [roundHalfEven, hf]
    rw [if_neg (by push_cast; linarith), if_pos (by push_cast; linarith)]
    omega

theorem intCast_le_pyRound {m : ℤ} {t : ℚ} (n : ℕ) (h : (m : ℚ) ≤ t) :
    (m : ℚ) ≤ pyRound t n := by
  unfold pyRound
  have hp : (0 : ℚ) < 10 ^ n := by positivity
  rw [le_div_iff₀ hp]
  have h1 := le_roundHalfEven (t * 10 ^ n)
  have h2 : (m : ℚ) * 10 ^ n ≤ t * 10 ^ n := by nlinarith
  have h3 : ((m * 10 ^ n : ℤ) : ℚ) - 1 < (roundHalfEven (t * 10 ^ n) : ℚ) := by
    push_cast; linarith
  have h4 : m * 10 ^ n - 1 < roundHalfEven (t * 10 ^ n) := by exact_mod_cast h3
  have h5 : m * 10 ^ n ≤ roundHalfEven (t * 10 ^ n) := by omega
  calc (m : ℚ) * 10 ^ n = ((m * 10 ^ n : ℤ) : ℚ) := by push_cast; ring
    _ ≤ _ := by exact_mod_cast h5

theorem mk_candidate_transfer_kw (env : Env) (sm mtp : ℚ) (a : RiskAssessment)
    (link : TopologyLink) :
    (mk_candidate env sm mtp a link).plan_json.transfer_kw =
      pyRound (transfer_amount env sm mtp a link) 2 := rfl

theorem mk_candidate_risk_before (env : Env) (sm mtp : ℚ) (a : RiskAssessment)
    (link : TopologyLink) :
    (mk_candidate env sm mtp a link).plan_json.risk_before = a.risk_score := rfl

theorem mk_candidate_risk_after (env : Env) (sm mtp : ℚ) (a : RiskAssessment)
    (link : TopologyLink) :
    (mk_candidate env sm mtp a link).plan_json.risk_after =
      _simulate_transfer env a.transformer link.to_transformer
        (transfer_amount env sm mtp a link) a.forecast := rfl

theorem mk_candidate_risk_reduction (env : Env) (sm mtp : ℚ) (a : RiskAssessment)
    (link : TopologyLink) :
    (mk_candidate env sm mtp a link).plan_json.risk_reduction =
      pyRound (a.risk_score -
        _simulate_transfer env a.transformer link.to_transformer
          (transfer_amount env sm mtp a link) a.forecast) 3 := rfl

theorem candidate_plan_eq_some {env : Env} {sm mtp : ℚ} {a : RiskAssessment}
    {link : TopologyLink} {p : MitigationPlan}
    (h : candidate_plan env sm mtp a link = some p) :
    ¬ _get_available_capacity env link.to_transformer < 50 ∧
    ¬ transfer_amount env sm mtp a link < 50 ∧
    p = mk_candidate env sm mtp a link := by
  simp only [candidate_plan] at h
  by_cases h1 : _get_available_capacity env link.to_transformer < 50
  · rw [if_pos h1] at h; exact Option.noConfusion h
  · rw [if_neg h1] at h
    by_cases h2 : transfer_amount env sm mtp a link < 50
    · rw [if_pos h2] at h; exact Option.noConfusion h
    · rw [if_neg h2] at h
      exact ⟨h1, h2, (Option.some.inj h).symm⟩

theorem candidate_plan_eq_some_of {env : Env} {sm mtp : ℚ} {a : RiskAssessment}
    {link : TopologyLink}
    (h1 : ¬ _get_available_capacity env link.to_transformer < 50)
    (h2 : ¬ transfer_amount env sm mtp a link < 50) :
    candidate_plan env sm mtp a link = some (mk_candidate env sm mtp a link) := by
  simp only [candidate_plan]
  rw [if_neg h1, if_neg h2]

theorem candidate_plan_eq_none {env : Env} {sm mtp : ℚ} {a : RiskAssessment}
    {link : TopologyLink} :
    candidate_plan env sm mtp a link = none ↔
      _get_available_capacity env link.to_transformer < 50 ∨
      transfer_amount env sm mtp a link < 50 := by
  simp only [candidate_plan]
  split_ifs with h1 h2
  · exact iff_of_true rfl (Or.inl h1)
  · exact iff_of_true rfl (Or.inr h2)
  · exact iff_of_false (by simp) (not_or.mpr ⟨h1, h2⟩)

theorem generate_plans_ok_of {env : Env} {a : RiskAssessment} {sm mtp : ℚ}
    (mp : ℕ)
    (h1 : ¬ _calculate_overload_kw a ≤ 0)
    (h2 : ¬ env.links a.transformer.id = [])
    (h3 : ¬ candidate_plans env sm mtp a = []) :
    generate_plans env a sm mtp mp =
      .ok ((sortDescBy (fun p => p.plan_json.risk_reduction)
        (candidate_plans env sm mtp a)).take mp) := by
  simp only [generate_plans]
  rw [if_neg h1, if_neg h2, if_neg h3]

theorem generate_plans_ok_inv {env : Env} {a : RiskAssessment} {sm mtp : ℚ}
    {mp : ℕ} {plans : List MitigationPlan}
    (h : generate_plans env a sm mtp mp = .ok plans) :
    plans = (sortDescBy (fun p => p.plan_json.risk_reduction)
      (candidate_plans env sm mtp a)).take mp := by
  simp only [generate_plans] at h
  by_cases h1 : _calculate_overload_kw a ≤ 0
  · rw [if_pos h1] at h; exact Except.noConfusion h
  · rw [if_neg h1] at h
    by_cases h2 : env.links a.transformer.id = []
    · rw [if_pos h2] at h; exact Except.noConfusion h
    · rw [if_neg h2] at h
      by_cases h3 : candidate_plans env sm mtp a = []
      · rw [if_pos h3] at h; exact Except.noConfusion h
      · rw [if_neg h3] at h
        exact (Except.ok.inj h).symm

theorem mem_generate_plans {env : Env} {a : RiskAssessment} {sm mtp : ℚ}
    {mp : ℕ} {plans : List MitigationPlan} {p : MitigationPlan}
    (hok : generate_plans env a sm mtp mp = .ok plans) (hp : p ∈ plans) :
    ∃ link ∈ env.links a.transformer.id,
      candidate_plan env sm mtp a link = some p := by
  rw [generate_plans_ok_inv hok] at hp
  have hp2 := List.take_subset _ _ hp
  rw [mem_sortDescBy] at hp2
  exact List.mem_filterMap.mp hp2

/-! ## Claims C1, C4, C5 -/

/-- C4: whenever `generate_plans` succeeds, the returned list is sorted
by `risk_reduction` descending, contains at most `max_plans` plans, and
candidates with equal `risk_reduction` keep their link-iteration order
(for each key value, the returned plans with that `risk_reduction` form
a sublist, in order, of the candidate list restricted to that value). -/
theorem generate_plans_sorted_capped_stable
    (env : Env) (a : RiskAssessment) (sm mtp : ℚ) (max_plans : ℕ)
    (plans : List MitigationPlan)
    (hok : generate_plans env a sm mtp max_plans = .ok plans) :
    plans.Pairwise
      (fun p q => q.plan_json.risk_reduction ≤ p.plan_json.risk_reduction) ∧
    plans.length ≤ max_plans ∧
    ∀ k : ℚ,
      List.Sublist
        (plans.filter (fun p => decide (p.plan_json.risk_reduction = k)))
        ((candidate_plans env sm mtp a).filter
          (fun p => decide (p.plan_json.risk_reduction = k))) := by
  rw [generate_plans_ok_inv hok]
  refine ⟨?_, ?_, ?_⟩
  · exact List.Pairwise.sublist (List.take_sublist _ _) (pairwise_sortDescBy _ _)
  · exact List.length_take_le _ _
  · intro k
    have h1 := List.Sublist.filter
      (fun p : MitigationPlan => decide (p.plan_json.risk_reduction = k))
      (List.take_sublist max_plans
        (sortDescBy (fun p => p.plan_json.risk_reduction)
          (candidate_plans env sm mtp a)))
    rwa [filter_sortDescBy] at h1

/-- C1 (amended): every returned plan's recorded `transfer_kw` is the
exact `min(overload_kw, link_max, available×0.8, peak×0.3)` for its link
rounded to two decimals, hence at least 50 kW and at most that minimum
plus 0.005 kW.  (The claim's bound without the rounding allowance fails;
see the counterexample.) -/
theorem transfer_kw_bounds
    (env : Env) (a : RiskAssessment) (max_plans : ℕ)
    (plans : List MitigationPlan) (p : MitigationPlan)
    (hok : generate_plans env a 0.8 0.3 max_plans = .ok plans)
    (hp : p ∈ plans) :
    50 ≤ p.plan_json.transfer_kw ∧
    ∃ link ∈ env.links a.transformer.id,
      p.plan_json.transfer_kw = pyRound (transfer_amount env 0.8 0.3 a link) 2 ∧
      p.plan_json.transfer_kw ≤
        min (_calculate_overload_kw a)
          (min link.max_transfer_kw
            (min (_get_available_capacity env link.to_transformer * 0.8)
              (a.forecast.peak_predicted_kw * 0.3))) + 0.005 := by
  obtain ⟨link, hl, hc⟩ := mem_generate_plans hok hp
  obtain ⟨h1, h2, hpe⟩ := candidate_plan_eq_some hc
  subst hpe
  have h50 : (50 : ℚ) ≤ transfer_amount env 0.8 0.3 a link := not_lt.mp h2
  rw [mk_candidate_transfer_kw]
  constructor
  · have h := intCast_le_pyRound (m := 50) 2 (by exact_mod_cast h50)
    exact_mod_cast h
  · refine ⟨link, hl, rfl, ?_⟩
    have hle := pyRound_le (transfer_amount env 0.8 0.3 a link) 2
    have heq : transfer_amount env 0.8 0.3 a link =
        min (_calculate_overload_kw a)
          (min link.max_transfer_kw
            (min (_get_available_capacity env link.to_transformer * 0.8)
              (a.forecast.peak_predicted_kw * 0.3))) := rfl
    rw [← heq]
    have : (1 : ℚ) / (2 * 10 ^ 2) = 0.005 := by norm_num
    linarith

/-- C5 (amended): the three error cases of `generate_plans` hold exactly
as the claim orders them, and with at least one plan requested
(`max_plans ≥ 1`) the non-error case returns a non-empty list.  (As
stated, with `max_plans = 0` the call succeeds with zero plans; see the
counterexample.) -/
theorem generate_plans_error_conditions
    (env : Env) (a : RiskAssessment) (sm mtp : ℚ) (mp : ℕ) :
    (generate_plans env a sm mtp mp = .error .notOverloaded ↔
      _calculate_overload_kw a ≤ 0) ∧
    (generate_plans env a sm mtp mp = .error .noNeighbors ↔
      0 < _calculate_overload_kw a ∧ env.links a.transformer.id = []) ∧
    (generate_plans env a sm mtp mp = .error .noViablePlan ↔
      0 < _calculate_overload_kw a ∧ env.links a.transformer.id ≠ [] ∧
      ∀ link ∈ env.links a.transformer.id,
        _get_available_capacity env link.to_transformer < 50 ∨
        transfer_amount env sm mtp a link < 50) ∧
    ((0 < _calculate_overload_kw a ∧ env.links a.transformer.id ≠ [] ∧
      ∃ link ∈ env.links a.transformer.id,
        ¬ (_get_available_capacity env link.to_transformer < 50 ∨
           transfer_amount env sm mtp a link < 50)) →
      1 ≤ mp →
      ∃ plans, generate_plans env a sm mtp mp = .ok plans ∧ plans ≠ []) := by
  simp only [generate_plans]
  split_ifs with h1 h2 h3
  · refine ⟨iff_of_true rfl h1, iff_of_false (by simp) ?_, iff_of_false (by simp) ?_, ?_⟩
    · rintro ⟨hov, -⟩; exact absurd h1 (not_le.mpr hov)
    · rintro ⟨hov, -, -⟩; exact absurd h1 (not_le.mpr hov)
    · rintro ⟨hov, -, -⟩ -; exact absurd h1 (not_le.mpr hov)
  · refine ⟨iff_of_false (by simp) h1, iff_of_true rfl ⟨not_le.mp h1, h2⟩,
      iff_of_false (by simp) ?_, ?_⟩
    · rintro ⟨-, hne, -⟩; exact hne h2
    · rintro ⟨-, hne, -⟩ -; exact absurd h2 hne
  · refine ⟨iff_of_false (by simp) h1, iff_of_false (by simp) ?_,
      iff_of_true rfl ⟨not_le.mp h1, h2, ?_⟩, ?_⟩
    · rintro ⟨-, hl⟩; exact h2 hl
    · intro link hl
      exact candidate_plan_eq_none.mp
        (List.filterMap_eq_nil_iff.mp h3 link hl)
    · rintro ⟨-, -, link, hl, hnot⟩ -
      exact absurd (candidate_plan_eq_none.mp (List.filterMap_eq_nil_iff.mp h3 link hl)) hnot
  · refine ⟨iff_of_false (by simp) h1, iff_of_false (by simp) ?_,
      iff_of_false (by simp) ?_, ?_⟩
    · rintro ⟨-, hl⟩; exact h2 hl
    · rintro ⟨-, -, hall⟩
      exact h3 (List.filterMap_eq_nil_iff.mpr
        (fun link hl => candidate_plan_eq_none.mpr (hall link hl)))
    · rintro - hmp
      refine ⟨_, rfl, ?_⟩
      apply List.ne_nil_of_length_pos
      rw [List.length_take, length_sortDescBy]
      have hpos : 0 < (candidate_plans env sm mtp a).length :=
        List.length_pos.mpr h3
      omega

/-! ## Claim C10 -/

theorem score_transformer_ok_of {env : Env} {t : Transformer} {fc : LoadForecast}
    (h : ¬ fc.predictions = []) :
    score_transformer env t fc = .ok
      { transformer := t
        forecast := fc
        risk_score := pyRound (0.6 * _calculate_overload_score fc.peak_predicted_pct +
          0.2 * _calculate_thermal_score env fc t +
          0.2 * _calculate_cascading_score env t) 3
        overload_pct := fc.peak_predicted_pct
        confidence := _calculate_assessment_confidence fc
        risk_components :=
          (pyRound (_calculate_overload_score fc.peak_predicted_pct) 3,
            pyRound (_calculate_thermal_score env fc t) 3,
            pyRound (_calculate_cascading_score env t) 3) } := by
  simp only [score_transformer]
  rw [if_neg h]

theorem score_transformer_ok_inv {env : Env} {t : Transformer} {fc : LoadForecast}
    {a : RiskAssessment} (h : score_transformer env t fc = .ok a) :
    a.transformer = t ∧ a.forecast = fc ∧
    a.risk_score = pyRound (0.6 * _calculate_overload_score fc.peak_predicted_pct +
      0.2 * _calculate_thermal_score env fc t +
      0.2 * _calculate_cascading_score env t) 3 := by
  simp only [score_transformer] at h
  by_cases hf : fc.predictions = []
  · rw [if_pos hf] at h; exact Except.noConfusion h
  · rw [if_neg hf] at h
    have he := Except.ok.inj h
    rw [← he]
    exact ⟨rfl, rfl, rfl⟩

/-- C10: for every plan generated from an assessment that was scored from
the same telemetry/topology state the simulation reads, `risk_after ≤
risk_before` (equivalently `risk_reduction ≥ 0`): the simulated score
recomputes only the overload component on a reduced peak, carries thermal
and cascading over unchanged, and the overload component is non-decreasing
in `peak_pct`.  (`hpct` is the forecast invariant `peak_pct = peak_kw /
rated_kw * 100`.) -/
theorem risk_after_le_risk_before
    (env : Env) (t : Transformer) (fc : LoadForecast) (a : RiskAssessment)
    (sm mtp : ℚ) (max_plans : ℕ) (plans : List MitigationPlan)
    (p : MitigationPlan)
    (hscore : score_transformer env t fc = .ok a)
    (hok : generate_plans env a sm mtp max_plans = .ok plans)
    (hp : p ∈ plans)
    (hrated : 0 < t.rated_kw)
    (hpct : fc.peak_predicted_pct * t.rated_kw = fc.peak_predicted_kw * 100) :
    p.plan_json.risk_after ≤ p.plan_json.risk_before ∧
    0 ≤ p.plan_json.risk_reduction := by
  obtain ⟨hat, haf, hrs⟩ := score_transformer_ok_inv hscore
  obtain ⟨link, hl, hc⟩ := mem_generate_plans hok hp
  obtain ⟨h1, h2, hpe⟩ := candidate_plan_eq_some hc
  subst hpe
  rw [mk_candidate_risk_after, mk_candidate_risk_before, mk_candidate_risk_reduction]
  set tk := transfer_amount env sm mtp a link with htk
  have h50 : (50 : ℚ) ≤ tk := not_lt.mp h2
  have hsim : _simulate_transfer env a.transformer link.to_transformer tk a.forecast =
      pyRound (0.6 * _calculate_overload_score
          ((a.forecast.peak_predicted_kw - tk) / a.transformer.rated_kw * 100) +
        0.2 * _calculate_thermal_score env a.forecast a.transformer +
        0.2 * _calculate_cascading_score env a.transformer) 3 := rfl
  have hnp : (fc.peak_predicted_kw - tk) / t.rated_kw * 100 ≤
      fc.peak_predicted_pct := by
    rw [div_mul_eq_mul_div, div_le_iff₀ hrated, hpct]
    linarith
  have hov := overload_score_mono hnp
  have hle : _simulate_transfer env a.transformer link.to_transformer tk a.forecast ≤
      a.risk_score := by
    rw [hsim, hrs, hat, haf]
    exact pyRound_mono (by linarith) 3
  exact ⟨hle, pyRound_nonneg (by linarith) 3⟩

/-! ## A concrete scenario (used by the witnesses)

An overloaded 1000 kW unit T-07 (predicted peak 1100 kW = 110 %) with a
single 300 kW link to a lightly loaded 2000 kW neighbor T-09. -/

def wt : Transformer :=
  { id := 0, name := "T-07", rated_kw := 1000, max_load_pct := 90
    install_year := 2015, cooling_type := "ONAN" }

def wn : Transformer :=
  { id := 1, name := "T-09", rated_kw := 2000, max_load_pct := 90
    install_year := 2015, cooling_type := "ONAN" }

def wlink : TopologyLink :=
  { to_transformer := wn, max_transfer_kw := 300, switch := none }

def wfc : LoadForecast :=
  { predictions := [{ predicted_kw := 1100, predicted_pct := 110, confidence := 0.8 }]
    peak_predicted_kw := 1100, peak_predicted_pct := 110 }

def wenv : Env :=
  { latestLoad := fun i => if i = 1 then some { load_kw := 500, load_pct := 25 } else none
    latestTemp := fun _ => none
    latestForecastPeak := fun _ => none
    links := fun i => if i = 0 then [wlink] else []
    currentYear := 2025 }

/-- The assessment `score_transformer` produces for this scenario. -/
def wA : RiskAssessment :=
  { transformer := wt
    forecast := wfc
    risk_score := pyRound (0.6 * _calculate_overload_score wfc.peak_predicted_pct +
      0.2 * _calculate_thermal_score wenv wfc wt +
      0.2 * _calculate_cascading_score wenv wt) 3
    overload_pct := wfc.peak_predicted_pct
    confidence := _calculate_assessment_confidence wfc
    risk_components :=
      (pyRound (_calculate_overload_score wfc.peak_predicted_pct) 3,
        pyRound (_calculate_thermal_score wenv wfc wt) 3,
        pyRound (_calculate_cascading_score wenv wt) 3) }

theorem w_score : score_transformer wenv wt wfc = .ok wA :=
  score_transformer_ok_of (by simp [wfc])

theorem w_links : wenv.links wA.transformer.id = [wlink] := rfl

theorem w_avail : _get_available_capacity wenv wn = 1300 := by
  norm_num [_get_available_capacity, wenv, wn, max_def]

theorem w_overload : _calculate_overload_kw wA = 200 := by
  norm_num [_calculate_overload_kw, wA, wt, wfc, max_def]

theorem w_transfer : transfer_amount wenv 0.8 0.3 wA wlink = 200 := by
  rw [transfer_amount]
  rw [show wlink.to_transformer = wn from rfl, w_avail, w_overload]
  norm_num [wlink, wA, wfc, min_def]

theorem w_cands :
    candidate_plans wenv 0.8 0.3 wA = [mk_candidate wenv 0.8 0.3 wA wlink] := by
  simp only [candidate_plans]
  rw [w_links, List.filterMap_cons]
  rw [candidate_plan_eq_some_of
    (by rw [show wlink.to_transformer = wn from rfl, w_avail]; norm_num)
    (by rw [w_transfer]; norm_num)]
  rfl

theorem w_genplans :
    generate_plans wenv wA 0.8 0.3 3 = .ok [mk_candidate wenv 0.8 0.3 wA wlink] := by
  rw [generate_plans_ok_of 3 (by rw [w_overload]; norm_num)
    (by rw [w_links]; simp) (by rw [w_cands]; simp)]
  rw [w_cands]
  rfl

/-- Witness for C4 at the concrete scenario. -/
theorem generate_plans_sorted_capped_stable_witness :
    generate_plans wenv wA 0.8 0.3 3 = .ok [mk_candidate wenv 0.8 0.3 wA wlink] ∧
    ([mk_candidate wenv 0.8 0.3 wA wlink].Pairwise
      (fun p q => q.plan_json.risk_reduction ≤ p.plan_json.risk_reduction) ∧
    [mk_candidate wenv 0.8 0.3 wA wlink].length ≤ 3 ∧
    ∀ k : ℚ,
      List.Sublist
        ([mk_candidate wenv 0.8 0.3 wA wlink].filter
          (fun p => decide (p.plan_json.risk_reduction = k)))
        ((candidate_plans wenv 0.8 0.3 wA).filter
          (fun p => decide (p.plan_json.risk_reduction = k)))) :=
  ⟨w_genplans,
    generate_plans_sorted_capped_stable wenv wA 0.8 0.3 3 _ w_genplans⟩

/-- Witness for C1 (amended) at the concrete scenario. -/
theorem transfer_kw_bounds_witness :
    generate_plans wenv wA 0.8 0.3 3 = .ok [mk_candidate wenv 0.8 0.3 wA wlink] ∧
    (50 ≤ (mk_candidate wenv 0.8 0.3 wA wlink).plan_json.transfer_kw ∧
    ∃ link ∈ wenv.links wA.transformer.id,
      (mk_candidate wenv 0.8 0.3 wA wlink).plan_json.transfer_kw =
        pyRound (transfer_amount wenv 0.8 0.3 wA link) 2 ∧
      (mk_candidate wenv 0.8 0.3 wA wlink).plan_json.transfer_kw ≤
        min (_calculate_overload_kw wA)
          (min link.max_transfer_kw
            (min (_get_available_capacity wenv link.to_transformer * 0.8)
              (wA.forecast.peak_predicted_kw * 0.3))) + 0.005) :=
  ⟨w_genplans,
    transfer_kw_bounds wenv wA 3 _ _ w_genplans (List.mem_singleton.mpr rfl)⟩

/-- Witness for C10 at the concrete scenario. -/
theorem risk_after_le_risk_before_witness :
    score_transformer wenv wt wfc = .ok wA ∧
    generate_plans wenv wA 0.8 0.3 3 = .ok [mk_candidate wenv 0.8 0.3 wA wlink] ∧
    ((mk_candidate wenv 0.8 0.3 wA wlink).plan_json.risk_after ≤
      (mk_candidate wenv 0.8 0.3 wA wlink).plan_json.risk_before ∧
    0 ≤ (mk_candidate wenv 0.8 0.3 wA wlink).plan_json.risk_reduction) :=
  ⟨w_score, w_genplans,
    risk_after_le_risk_before wenv wt wfc wA 0.8 0.3 3 _ _ w_score w_genplans
      (List.mem_singleton.mpr rfl) (by norm_num [wt]) (by norm_num [wfc, wt])⟩

/-- C5 counterexample: with `max_plans = 0` and a viable neighbor, the
call succeeds with zero plans, refuting "otherwise it returns at least
one plan" as stated. -/
theorem generate_plans_zero_max_plans :
    generate_plans wenv wA 0.8 0.3 0 = .ok [] ∧
    0 < _calculate_overload_kw wA ∧
    wenv.links wA.transformer.id ≠ [] ∧
    ¬ (_get_available_capacity wenv wlink.to_transformer < 50 ∨
       transfer_amount wenv 0.8 0.3 wA wlink < 50) := by
  refine ⟨?_, by rw [w_overload]; norm_num, by rw [w_links]; simp, ?_⟩
  · rw [generate_plans_ok_of 0 (by rw [w_overload]; norm_num)
      (by rw [w_links]; simp) (by rw [w_cands]; simp)]
    rw [w_cands]
    rfl
  · push_neg
    exact ⟨by rw [show wlink.to_transformer = wn from rfl, w_avail]; norm_num,
      by rw [w_transfer]; norm_num⟩

/-- A non-overloaded assessment for the C5 witness (peak 500 kW on a
1000 kW unit with a 90 % safe limit). -/
def w5fc : LoadForecast :=
  { predictions := [], peak_predicted_kw := 500, peak_predicted_pct := 50 }

def w5a : RiskAssessment :=
  { transformer := wt, forecast := w5fc, risk_score := 0, overload_pct := 50
    confidence := 0.5, risk_components := (0, 0, 0) }

/-- Witness for C5 (amended): a unit within its safe limit yields
`NotOverloadedError`. -/
theorem generate_plans_error_conditions_witness :
    generate_plans wenv w5a 0.8 0.3 3 = .error .notOverloaded :=
  (generate_plans_error_conditions wenv w5a 0.8 0.3 3).1.mpr
    (by norm_num [_calculate_overload_kw, w5a, w5fc, wt, max_def])

/-! ## C1 counterexample scenario

A unit whose overload is 77.777 kW: the recorded `transfer_kw` is the
2-decimal rounding 77.78, strictly above the exact minimum 77.777. -/

def cxt : Transformer :=
  { id := 10, name := "T-10", rated_kw := 1000, max_load_pct := 80
    install_year := 2015, cooling_type := "ONAN" }

def cxn : Transformer :=
  { id := 11, name := "T-11", rated_kw := 2000, max_load_pct := 100
    install_year := 2015, cooling_type := "ONAN" }

def cxlink : TopologyLink :=
  { to_transformer := cxn, max_transfer_kw := 1000, switch := none }

def cxfc : LoadForecast :=
  { predictions := [], peak_predicted_kw := 877.777, peak_predicted_pct := 87.78 }

def cxenv : Env :=
  { latestLoad := fun i => if i = 11 then some { load_kw := 0, load_pct := 0 } else none
    latestTemp := fun _ => none
    latestForecastPeak := fun _ => none
    links := fun i => if i = 10 then [cxlink] else []
    currentYear := 2025 }

def cxa : RiskAssessment :=
  { transformer := cxt, forecast := cxfc, risk_score := 0.5, overload_pct := 87.78
    confidence := 0.8, risk_components := (0, 0, 0) }

theorem cx_links : cxenv.links cxa.transformer.id = [cxlink] := rfl

theorem cx_avail : _get_available_capacity cxenv cxn = 2000 := by
  norm_num [_get_available_capacity, cxenv, cxn, max_def]

theorem cx_overload : _calculate_overload_kw cxa = 77.777 := by
  norm_num [_calculate_overload_kw, cxa, cxt, cxfc, max_def]

theorem cx_transfer : transfer_amount cxenv 0.8 0.3 cxa cxlink = 77.777 := by
  rw [transfer_amount]
  rw [show cxlink.to_transformer = cxn from rfl, cx_avail, cx_overload]
  norm_num [cxlink, cxa, cxfc, min_def]

theorem cx_cands :
    candidate_plans cxenv 0.8 0.3 cxa = [mk_candidate cxenv 0.8 0.3 cxa cxlink] := by
  simp only [candidate_plans]
  rw [cx_links, List.filterMap_cons]
  rw [candidate_plan_eq_some_of
    (by rw [show cxlink.to_transformer = cxn from rfl, cx_avail]; norm_num)
    (by rw [cx_transfer]; norm_num)]
  rfl

theorem cx_genplans :
    generate_plans cxenv cxa 0.8 0.3 3 = .ok [mk_candidate cxenv 0.8 0.3 cxa cxlink] := by
  rw [generate_plans_ok_of 3 (by rw [cx_overload]; norm_num)
    (by rw [cx_links]; simp) (by rw [cx_cands]; simp)]
  rw [cx_cands]
  rfl

/-- C1 counterexample: a generated plan whose recorded `transfer_kw`
(77.78, the 2-decimal rounding of 77.777) strictly exceeds
`min(overload_kw, link_max_transfer_kw, available_capacity × 0.8,
peak_kw × 0.3) = 77.777`, refuting the claimed upper bound as stated. -/
theorem transfer_kw_exceeds_min_bound :
    generate_plans cxenv cxa 0.8 0.3 3 = .ok [mk_candidate cxenv 0.8 0.3 cxa cxlink] ∧
    (mk_candidate cxenv 0.8 0.3 cxa cxlink).plan_json.transfer_kw = 77.78 ∧
    min (_calculate_overload_kw cxa)
      (min cxlink.max_transfer_kw
        (min (_get_available_capacity cxenv cxlink.to_transformer * 0.8)
          (cxa.forecast.peak_predicted_kw * 0.3))) = 77.777 ∧
    ¬ ((77.78 : ℚ) ≤ 77.777) := by
  refine ⟨cx_genplans, ?_, ?_, by norm_num⟩
  · rw [mk_candidate_transfer_kw, cx_transfer]
    unfold pyRound
    rw [roundHalfEven_eq_of_lt (m := 7778) (by norm_num) (by norm_num)]
    norm_num
  · rw [show min (_calculate_overload_kw cxa)
        (min cxlink.max_transfer_kw
          (min (_get_available_capacity cxenv cxlink.to_transformer * 0.8)
            (cxa.forecast.peak_predicted_kw * 0.3))) =
        transfer_amount cxenv 0.8 0.3 cxa cxlink from rfl]
    exact cx_transfer

/-! ## LoadForecaster (`apps/forecasting/services/predictor.py`)

Only the per-hour prediction pipeline (source lines 77–108 and the two
helpers it calls) is needed by the claims.  A historical reading is
reduced to the fields the forecaster reads: the local hour of its
timestamp, `load_kw`, and optional `temp_c`. -/

structure Reading where
  hour : ℕ
  load_kw : ℚ
  temp_c : Option ℚ
deriving DecidableEq, Repr

/-- `LoadForecaster._calculate_hourly_patterns`, applied at one hour. -/
def _calculate_hourly_patterns (historical_data : List Reading) (hour : ℕ) : ℚ :=
  let hour_data :=
    (historical_data.filter (fun r => decide (r.hour = hour))).map (·.load_kw)
  if hour_data ≠ [] then listMean hour_data
  else
    -- Fallback: use overall average
    let all_loads := historical_data.map (·.load_kw)
    if all_loads ≠ [] then listMean all_loads else 0

/-- `LoadForecaster._estimate_temperature_factor` (depends on the target
time only through its hour).  `if r.temp_c` uses Python truthiness. -/
def _estimate_temperature_factor (hour : ℕ) (historical_data : List Reading) : ℚ :=
  let temps :=
    (historical_data.filter (fun r => pyTruthy r.temp_c)).map (fun r => r.temp_c.getD 0)
  if temps = [] then
    -- No temperature data, use time-of-day heuristic
    if 12 ≤ hour ∧ hour ≤ 18 then 1.10
    else if (6 ≤ hour ∧ hour ≤ 11) ∨ (19 ≤ hour ∧ hour ≤ 22) then 1.0
    else 0.95
  else
    let avg_temp := listMean temps
    let estimated_temp :=
      if 12 ≤ hour ∧ hour ≤ 16 then avg_temp + 3
      else if 17 ≤ hour ∧ hour ≤ 20 then avg_temp + 1
      else if hour ≤ 6 then avg_temp - 3
      else avg_temp
    if estimated_temp > 25 then 1.0 + (estimated_temp - 25) * 0.01 else 1.0

/-- One iteration of the forecast loop of `LoadForecaster.forecast`: the
(pre-rounding) `predicted_kw` for a target time with the given hour of
day and day of week (`0 = Monday … 6 = Sunday`).  The `dict.get` default
`rated_kw * 0.7` is dead for target hours 0–23, which the loop always
produces. -/
def forecast_hour_kw (transformer : Transformer) (historical_data : List Reading)
    (hour_of_day day_of_week : ℕ) : ℚ :=
  let predicted_kw :=
    if hour_of_day < 24 then _calculate_hourly_patterns historical_data hour_of_day
    else transformer.rated_kw * 0.7
  let predicted_kw :=
    if day_of_week = 5 ∨ day_of_week = 6 then predicted_kw * 0.85 else predicted_kw
  predicted_kw * _estimate_temperature_factor hour_of_day historical_data

/-! ## Claim C9 -/

/-- C9: holding the historical window fixed, the predicted kW the
forecaster computes for a Saturday/Sunday target is exactly 0.85 times
the predicted kW for a weekday target with the same hour of day. -/
theorem weekend_factor_085
    (transformer : Transformer) (historical_data : List Reading)
    (hour dw dd : ℕ)
    (hw : dw = 5 ∨ dw = 6) (hd : ¬ (dd = 5 ∨ dd = 6)) :
    forecast_hour_kw transformer historical_data hour dw =
      0.85 * forecast_hour_kw transformer historical_data hour dd := by
  simp only [forecast_hour_kw]
  rw [if_pos hw, if_neg hd]
  ring

/-- Witness for C9: Sunday vs Wednesday at 14:00 with an empty window. -/
theorem weekend_factor_085_witness :
    ((6 : ℕ) = 5 ∨ (6 : ℕ) = 6) ∧ ¬ ((2 : ℕ) = 5 ∨ (2 : ℕ) = 6) ∧
    forecast_hour_kw wt [] 14 6 = 0.85 * forecast_hour_kw wt [] 14 2 :=
  ⟨Or.inr rfl, by decide,
    weekend_factor_085 wt [] 14 6 2 (Or.inr rfl) (by decide)⟩

/-! ## Bulk stages (`BulkForecaster`, `BulkRiskScorer`)

The per-unit computation is abstracted as a fallible function (in the
source, any exception is caught and stringified); the loop structure is
the exact `try/except` accumulation of the source. -/

structure BulkResult (β υ : Type) where
  successful : List β
  failed : List (υ × String)
  total_attempted : ℕ
  success_count : ℕ
  failure_count : ℕ

/-- The shared `for … try/except` loop of both bulk services: returns
the `successful` and `failed` lists in unit order. -/
def run_units {υ β : Type} (f : υ → Except String β) :
    List υ → List β × List (υ × String)
  | [] => ([], [])
  | u :: us =>
    let rest := run_units f us
    match f u with
    | .ok b => (b :: rest.1, rest.2)
    | .error e => (rest.1, (u, e) :: rest.2)

/-- `BulkForecaster.forecast_all_transformers`. -/
def forecast_all_transformers {υ β : Type} (forecast : υ → Except String β)
    (transformers : List υ) : BulkResult β υ :=
  let r := run_units forecast transformers
  { successful := r.1, failed := r.2
    total_attempted := transformers.length
    success_count := r.1.length, failure_count := r.2.length }

/-- The per-unit body of `BulkRiskScorer.score_all_transformers`: fetch
the latest forecast (raising "No forecast available" when absent), then
score. -/
def score_one {υ φ α : Type} (latest_forecast : υ → Option φ)
    (score : υ → φ → Except String α) (transformer : υ) : Except String α :=
  match latest_forecast transformer with
  | none => .error "No forecast available"
  | some fc => score transformer fc

/-- `BulkRiskScorer.score_all_transformers`. -/
def score_all_transformers {υ φ α : Type} (latest_forecast : υ → Option φ)
    (score : υ → φ → Except String α) (transformers : List υ) : BulkResult α υ :=
  let r := run_units (score_one latest_forecast score) transformers
  { successful := r.1, failed := r.2
    total_attempted := transformers.length
    success_count := r.1.length, failure_count := r.2.length }

theorem run_units_eq {υ β : Type} (f : υ → Except String β) (ts : List υ) :
    run_units f ts =
      (ts.filterMap (fun u => (f u).toOption),
       ts.filterMap (fun u => match f u with
        | .error e => some (u, e) | .ok _ => none)) := by
  induction ts with
  | nil => rfl
  | cons u us ih =>
    simp only [run_units, ih, List.filterMap_cons]
    cases hfu : f u <;> simp [Except.toOption]

/-! ## Claim C8 -/

/-- C8: the bulk stages process each unit independently.  The successful
list is exactly the per-unit successes in order, the failed list is
exactly the per-unit `{unit, error}` records in order (so each unit ends
up in exactly one of the two and the counts add up), and a failing unit
contributes exactly its own record without altering the results of the
other units. -/
theorem bulk_stages_isolate_failures {υ β φ α : Type} :
    (∀ (f : υ → Except String β) (ts : List υ),
      (forecast_all_transformers f ts).successful =
        ts.filterMap (fun u => (f u).toOption) ∧
      (forecast_all_transformers f ts).failed =
        ts.filterMap (fun u => match f u with
          | .error e => some (u, e) | .ok _ => none) ∧
      (forecast_all_transformers f ts).success_count +
          (forecast_all_transformers f ts).failure_count =
        (forecast_all_transformers f ts).total_attempted) ∧
    (∀ (f : υ → Except String β) (xs ys : List υ) (u : υ) (e : String),
      f u = .error e →
      (forecast_all_transformers f (xs ++ u :: ys)).successful =
        (forecast_all_transformers f (xs ++ ys)).successful ∧
      (forecast_all_transformers f (xs ++ u :: ys)).failed =
        (forecast_all_transformers f xs).failed ++
          (u, e) :: (forecast_all_transformers f ys).failed) ∧
    (∀ (getf : υ → Option φ) (sc : υ → φ → Except String α) (ts : List υ),
      (score_all_transformers getf sc ts).successful =
        ts.filterMap (fun u => (score_one getf sc u).toOption) ∧
      (score_all_transformers getf sc ts).failed =
        ts.filterMap (fun u => match score_one getf sc u with
          | .error e => some (u, e) | .ok _ => none) ∧
      (score_all_transformers getf sc ts).success_count +
          (score_all_transformers getf sc ts).failure_count =
        (score_all_transformers getf sc ts).total_attempted) ∧
    (∀ (getf : υ → Option φ) (sc : υ → φ → Except String α)
        (xs ys : List υ) (u : υ) (e : String),
      score_one getf sc u = .error e →
      (score_all_transformers getf sc (xs ++ u :: ys)).successful =
        (score_all_transformers getf sc (xs ++ ys)).successful ∧
      (score_all_transformers getf sc (xs ++ u :: ys)).failed =
        (score_all_transformers getf sc xs).failed ++
          (u, e) :: (score_all_transformers getf sc ys).failed) := by
  have hchar : ∀ (γ : Type) (g : υ → Except String γ) (ts : List υ),
      (run_units g ts).1 = ts.filterMap (fun u => (g u).toOption) ∧
      (run_units g ts).2 = ts.filterMap (fun u => match g u with
        | .error e => some (u, e) | .ok _ => none) := by
    intro γ g ts
    rw [run_units_eq]
    exact ⟨rfl, rfl⟩
  have hcount : ∀ (γ : Type) (g : υ → Except String γ) (ts : List υ),
      (run_units g ts).1.length + (run_units g ts).2.length = ts.length := by
    intro γ g ts
    induction ts with
    | nil => rfl
    | cons u us ih =>
      simp only [run_units]
      cases g u <;> simp <;> omega
  have hiso : ∀ (γ : Type) (g : υ → Except String γ) (xs ys : List υ) (u : υ)
      (e : String), g u = .error e →
      (run_units g (xs ++ u :: ys)).1 = (run_units g (xs ++ ys)).1 ∧
      (run_units g (xs ++ u :: ys)).2 =
        (run_units g xs).2 ++ (u, e) :: (run_units g ys).2 := by
    intro γ g xs ys u e hgu
    rw [run_units_eq, run_units_eq, run_units_eq, run_units_eq]
    constructor
    · simp [List.filterMap_append, List.filterMap_cons, hgu, Except.toOption]
    · simp [List.filterMap_append, List.filterMap_cons, hgu]
  refine ⟨fun f ts => ?_, fun f xs ys u e hfu => ?_,
    fun getf sc ts => ?_, fun getf sc xs ys u e hsu => ?_⟩
  · exact ⟨(hchar β f ts).1, (hchar β f ts).2, hcount β f ts⟩
  · exact hiso β f xs ys u e hfu
  · exact ⟨(hchar α (score_one getf sc) ts).1, (hchar α (score_one getf sc) ts).2,
      hcount α (score_one getf sc) ts⟩
  · exact hiso α (score_one getf sc) xs ys u e hsu

/-- A concrete per-unit function for the C8 witness: unit 1 fails. -/
def w8f : ℕ → Except String ℕ :=
  fun n => if n = 1 then .error "boom" else .ok (n + 10)

/-- Witness for C8: unit 1 fails; its record is inserted and the other
results are unchanged. -/
theorem bulk_stages_isolate_failures_witness :
    w8f 1 = .error "boom" ∧
    (forecast_all_transformers w8f ([0] ++ 1 :: [2])).successful =
      (forecast_all_transformers w8f ([0] ++ [2])).successful ∧
    (forecast_all_transformers w8f ([0] ++ 1 :: [2])).failed =
      (forecast_all_transformers w8f [0]).failed ++
        (1, "boom") :: (forecast_all_transformers w8f [2]).failed := by
  refine ⟨rfl, ?_⟩
  exact (@bulk_stages_isolate_failures ℕ ℕ ℕ ℕ).2.1 w8f [0] [2] 1 "boom" rfl

/-! ## PlanEnhancer (`apps/llm/services/claude_service.py`)

The generative backend together with `_validate_schema` is abstracted as
`backend : ℕ → Option NarrativeBundle`: attempt `i` either yields a
validated bundle or fails (API error, JSON error, or schema-validation
error — all handled identically by the retry loop).  `plan_data.get`
defaults never fire for simulator-produced plans, whose `plan_json`
always carries every key, so `PlanData` fields are read directly. -/

structure NarrativeBundle where
  executive_summary : String
  operator_steps : List String
  field_checklist : List String
  rollback_steps : List String
  assumptions : List String
  confidence : ℚ
deriving DecidableEq, Repr

/-- The content checks of `ClaudeExplainer._validate_schema` (key
presence and types are enforced structurally by `NarrativeBundle`). -/
def valid_schema (b : NarrativeBundle) : Prop :=
  b.operator_steps ≠ [] ∧ b.field_checklist ≠ [] ∧ b.rollback_steps ≠ [] ∧
  50 ≤ b.executive_summary.length ∧ 0 ≤ b.confidence ∧ b.confidence ≤ 1

/-- `ClaudeExplainer.generate_template_fallback`. -/
def generate_template_fallback (plan_data : PlanData) : NarrativeBundle :=
  let from_name := plan_data.from_transformer_name
  let to_name := plan_data.to_transformer_name
  let transfer_kw := plan_data.transfer_kw
  let switch_name := plan_data.switch_name
  let load_before := plan_data.load_before_pct
  let load_after := plan_data.load_after_pct
  let risk_reduction := plan_data.risk_reduction
  { executive_summary :=
      "Transformer " ++ from_name ++ " is predicted to reach " ++
        fmtFixed 1 load_before ++
        "% load, exceeding safe operating limits. Transferring " ++
        fmtFixed 0 transfer_kw ++ " kW to " ++ to_name ++ " via " ++ switch_name ++
        " will reduce load to " ++ fmtFixed 1 load_after ++
        "% and decrease risk by " ++ fmtFixed 3 risk_reduction ++
        ". This is a standard load balancing operation following JEPCO procedures."
    operator_steps :=
      [ "1. Verify " ++ switch_name ++ " is available and not under maintenance",
        "2. Confirm " ++ to_name ++ " has sufficient capacity (check current load < 85%)",
        "3. Notify field crew and obtain confirmation of readiness",
        "4. Close " ++ switch_name ++ " to enable load transfer",
        "5. Monitor voltage and load on both " ++ from_name ++ " and " ++ to_name ++
          " for 10 minutes",
        "6. Verify " ++ from_name ++ " load drops to expected level",
        "7. Confirm no customer complaints or voltage issues",
        "8. Document operation in system logs" ]
    field_checklist :=
      [ "Personal Protective Equipment (PPE) verified and worn",
        "Lockout/tagout procedures followed per JEPCO standards",
        "Voltage verification performed before switch operation",
        "Communication equipment functional and tested",
        "Emergency contacts and rollback plan reviewed",
        "Weather conditions checked (avoid operations during storms)",
        "Backup crew notified and on standby" ]
    rollback_steps :=
      [ "1. If voltage deviation exceeds 1.05 per-unit, immediately reopen " ++ switch_name,
        "2. If customer complaints received within 5 minutes, revert operation",
        "3. If " ++ to_name ++ " load exceeds 90%, partial rollback may be required",
        "4. Notify control room supervisor of any abnormal conditions",
        "5. Document all observations and actions taken",
        "6. Await further instructions before re-attempting transfer" ]
    assumptions :=
      [ "Forecast accuracy ±6% based on historical performance",
        "Weather conditions remain stable during operation",
        "No concurrent outages or maintenance in the area",
        to_name ++ " transformer is operating normally",
        "Communication systems remain functional",
        "Standard JEPCO safety procedures are followed" ]
    confidence := 0.75 }

/-- The in-place narrative update applied by `PlanEnhancer.enhance_plan`
on both the success path and the fallback path (same six fields). -/
def set_narrative (mitigation_plan : MitigationPlan) (b : NarrativeBundle) :
    MitigationPlan :=
  { mitigation_plan with
    executive_summary := b.executive_summary
    operator_steps := b.operator_steps
    field_checklist := b.field_checklist
    rollback_steps := b.rollback_steps
    assumptions := b.assumptions
    llm_confidence := b.confidence }

/-- The retry loop `for attempt in range(max_retries + 1)`: first
successful attempt, if any, starting at `start` with `fuel` attempts
remaining. -/
def try_attempts (backend : ℕ → Option NarrativeBundle) :
    ℕ → ℕ → Option NarrativeBundle
  | _, 0 => none
  | start, fuel + 1 =>
    match backend start with
    | some b => some b
    | none => try_attempts backend (start + 1) fuel

/-- `PlanEnhancer.enhance_plan`: try the backend `max_retries + 1` times;
on total failure overwrite the narrative fields with the template
fallback. -/
def enhance_plan (backend : ℕ → Option NarrativeBundle) (max_retries : ℕ)
    (mitigation_plan : MitigationPlan) : MitigationPlan :=
  match try_attempts backend 0 (max_retries + 1) with
  | some enhanced => set_narrative mitigation_plan enhanced
  | none =>
    set_narrative mitigation_plan
      (generate_template_fallback mitigation_plan.plan_json)

theorem try_attempts_none {backend : ℕ → Option NarrativeBundle} :
    ∀ (fuel start : ℕ), (∀ i, i < fuel → backend (start + i) = none) →
      try_attempts backend start fuel = none
  | 0, _, _ => rfl
  | fuel + 1, start, h => by
    simp only [try_attempts]
    rw [show backend start = none from by simpa using h 0 (by omega)]
    exact try_attempts_none fuel (start + 1) (fun i hi => by
      rw [show start + 1 + i = start + (i + 1) from by omega]
      exact h (i + 1) (by omega))

/-- The fallback summary is at least 50 characters for every plan input:
one of its fixed fragments alone is longer than 50. -/
theorem fallback_summary_long (plan_data : PlanData) :
    50 ≤ (generate_template_fallback plan_data).executive_summary.length := by
  have h1 : 50 ≤
      ("% load, exceeding safe operating limits. Transferring " : String).length := by
    decide
  simp only [generate_template_fallback, String.length_append]
  omega

/-! ## Claim C2 -/

/-- C2: when every backend attempt (`0 … max_retries`) fails or fails
validation, `enhance_plan` overwrites the plan's narrative fields in
place with the deterministic template fallback, and the fallback bundle
is schema-valid with confidence exactly 0.75 for every plan input,
including zero/empty ones. -/
theorem enhance_plan_fallback
    (backend : ℕ → Option NarrativeBundle) (max_retries : ℕ)
    (mitigation_plan : MitigationPlan)
    (hfail : ∀ i, i ≤ max_retries → backend i = none) :
    enhance_plan backend max_retries mitigation_plan =
      set_narrative mitigation_plan
        (generate_template_fallback mitigation_plan.plan_json) ∧
    valid_schema (generate_template_fallback mitigation_plan.plan_json) ∧
    (generate_template_fallback mitigation_plan.plan_json).confidence = 0.75 ∧
    (enhance_plan backend max_retries mitigation_plan).llm_confidence = 0.75 := by
  have hnone : try_attempts backend 0 (max_retries + 1) = none :=
    try_attempts_none (max_retries + 1) 0
      (fun i hi => by simpa using hfail i (by omega))
  refine ⟨?_, ⟨?_, ?_, ?_, fallback_summary_long _, ?_, ?_⟩, rfl, ?_⟩
  · simp only [enhance_plan, hnone]
  · simp [generate_template_fallback]
  · simp [generate_template_fallback]
  · simp [generate_template_fallback]
  · norm_num [generate_template_fallback]
  · norm_num [generate_template_fallback]
  · simp only [enhance_plan, hnone]
    rfl

/-- A degenerate all-zero/empty plan for the C2 witness. -/
def w2_plan : MitigationPlan :=
  { plan_json :=
      { from_transformer := 0, from_transformer_name := ""
        to_transformer := 0, to_transformer_name := ""
        transfer_kw := 0, switch_id := none, switch_name := ""
        link_capacity_kw := 0, risk_before := 0, risk_after := 0
        risk_reduction := 0, expected_operations := 0
        load_before_pct := 0, load_after_pct := 0 }
    expected_risk_after := 0, expected_load_reduction_kw := 0
    executive_summary := "", operator_steps := [], field_checklist := []
    rollback_steps := [], assumptions := [], llm_confidence := 0 }

/-- Witness for C2: a backend that always fails, two retries, and the
degenerate zero/empty plan. -/
theorem enhance_plan_fallback_witness :
    (∀ i : ℕ, i ≤ 2 → (fun _ : ℕ => (none : Option NarrativeBundle)) i = none) ∧
    (enhance_plan (fun _ => none) 2 w2_plan =
      set_narrative w2_plan (generate_template_fallback w2_plan.plan_json) ∧
    valid_schema (generate_template_fallback w2_plan.plan_json) ∧
    (generate_template_fallback w2_plan.plan_json).confidence = 0.75 ∧
    (enhance_plan (fun _ => none) 2 w2_plan).llm_confidence = 0.75) :=
  ⟨fun _ _ => rfl,
    enhance_plan_fallback (fun _ => none) 2 w2_plan (fun _ _ => rfl)⟩

end Jepco
